import Mathlib

/-!
Verification of the strava-haddock repository (auth.py, haddock.py).

The Python sources are shallowly embedded: pure helpers become Lean
functions, Python strings are modelled as `String` or `List Char`
(ASCII-level), Python floats are idealised as rationals `ℚ`, and the
stateful flows (token refresh, OAuth, the main loop) are modelled as
functions from explicit state plus wire oracles to event traces.
-/

namespace StravaHaddock

deriving instance DecidableEq for Except

/-! ### Python string primitives, modelled on `List Char`.

Python `str.split`, `str.startswith`, `str.replace`, `str.strip` and
`str.find`, at the ASCII level used by the repository. -/

/-- Characters stripped by Python `str.strip()` (ASCII whitespace). -/
def isPySpace (c : Char) : Bool :=
  c = ' ' || c = '\t' || c = '\n' || c = '\r' || c = '\x0b' || c = '\x0c'

/-- Python `s.strip()`: drop leading and trailing whitespace. -/
def pyStrip (l : List Char) : List Char :=
  ((l.dropWhile isPySpace).reverse.dropWhile isPySpace).reverse

/-- Python `s.split("\n")`: split on every newline, keeping empty pieces.
The result is always nonempty. -/
def splitLines : List Char → List (List Char)
  | [] => [[]]
  | c :: cs =>
    if c = '\n' then [] :: splitLines cs
    else
      match splitLines cs with
      | l :: ls => (c :: l) :: ls
      | [] => [[c]]

/-- Fuel-driven core of `replaceAll`; the fuel is the length of the list,
which bounds the number of recursion steps. -/
def replaceAllAux (pat : List Char) : Nat → List Char → List Char
  | _, [] => []
  | 0, l => l
  | fuel + 1, c :: cs =>
    if pat.isPrefixOf (c :: cs) && !pat.isEmpty then
      replaceAllAux pat fuel (List.drop (pat.length - 1) cs)
    else
      c :: replaceAllAux pat fuel cs

/-- Python `s.replace(pat, "")`: remove every (left-to-right,
non-overlapping) occurrence of `pat`. -/
def replaceAll (pat l : List Char) : List Char :=
  replaceAllAux pat l.length l

/-- Python `s.find(pat)` restricted to a found/not-found answer:
index of the first occurrence of `pat`, or `none`.  `pat in s` is
`(findSub pat s).isSome`. -/
def findSub (pat : List Char) : List Char → Option Nat
  | [] => if pat.isEmpty then some 0 else none
  | c :: cs =>
    if pat.isPrefixOf (c :: cs) then some 0
    else (findSub pat cs).map (· + 1)

/-! ### Numeric helpers for the Python float operations.

Python floats are idealised as rationals; `int()`, `//` and `%` follow
the Python semantics (truncation toward zero, floor division,
sign-of-divisor modulus). -/

/-- `Rat.floor`, used instead of `Int.floor` so that terms reduce. -/
def qfloor (q : ℚ) : ℤ := Rat.floor q

theorem qfloor_eq_floor (q : ℚ) : qfloor q = ⌊q⌋ :=
  (Rat.floor_def' q).trans Rat.floor_def.symm

/-- Python `int(x)`: truncation toward zero. -/
def pyInt (q : ℚ) : ℤ := if 0 ≤ q then qfloor q else -qfloor (-q)

/-- Python `x % y` on floats: `x - y * (x // y)` with floor division. -/
def pyMod (a b : ℚ) : ℚ := a - b * (qfloor (a / b) : ℚ)

/-- Zero-pad an integer to width two, as Python `f"{n:02d}"`. -/
def pad2 (n : ℤ) : String :=
  let s := toString n
  if s.length < 2 then "0" ++ s else s

/-- Round half to even (the rounding used by Python `format` on exact
halves), returning the nearest integer. -/
def roundHalfEven (q : ℚ) : ℤ :=
  let f := qfloor q
  let frac := q - (f : ℚ)
  if frac < 1 / 2 then f
  else if 1 / 2 < frac then f + 1
  else if f % 2 = 0 then f else f + 1

/-- Left-pad a numeral string with zeros to width `d`. -/
def padZeros (d : Nat) (s : String) : String :=
  String.mk (List.replicate (d - s.length) '0') ++ s

/-- Python `f"{q:.df}"` idealised on rationals: fixed-point rendering
with `d` digits after the point, rounding half to even. -/
def formatFixed (d : Nat) (q : ℚ) : String :=
  let n := roundHalfEven (q * (10 : ℚ) ^ d)
  let sign := if n < 0 then "-" else ""
  let m := n.natAbs
  if d = 0 then sign ++ toString m
  else sign ++ toString (m / 10 ^ d) ++ "." ++ padZeros d (toString (m % 10 ^ d))

/-! ### haddock.py formatters (lines 96-127). -/

/-- haddock.py `format_pace` (lines 96-104).  The argument is the raw
`average_speed` value: `none` for a missing field, otherwise the float,
both of which Python tests with `not meters_per_second`. -/
def format_pace (meters_per_second : Option ℚ) : String :=
  match meters_per_second with
  | none => "N/A"
  | some v =>
    if v = 0 then "N/A"
    else
      let seconds_per_mile : ℚ := 160934 / 100 / v
      let minutes : ℤ := qfloor (seconds_per_mile / 60)
      let seconds : ℤ := pyInt (pyMod seconds_per_mile 60)
      toString minutes ++ ":" ++ pad2 seconds ++ " /mi"

/-- haddock.py `format_distance` (lines 107-110). -/
def format_distance (meters : ℚ) : String :=
  formatFixed 2 (meters / (160934 / 100)) ++ " mi"

/-- haddock.py `format_duration` (lines 113-127), for the integer
`elapsed_time` values the Strava API supplies. -/
def format_duration (seconds : Nat) : String :=
  let hours := seconds / 3600
  let minutes := seconds % 3600 / 60
  let secs := seconds % 60
  let parts : List String := []
  let parts := if hours ≠ 0 then parts ++ [toString hours ++ "h"] else parts
  let parts := if minutes ≠ 0 then parts ++ [toString minutes ++ "m"] else parts
  let parts := if secs ≠ 0 ∨ parts = [] then parts ++ [toString secs ++ "s"] else parts
  String.intercalate " " parts

/-! ### haddockify response parsing (haddock.py lines 220-237).

The model response is a `List Char`.  The code first folds over the
lines, recording the stripped `replace`-cleaned text of lines starting
with `"TITLE:"` or `"DESCRIPTION:"`, then overrides the description
with everything after the first `"DESCRIPTION:"` marker when the marker
occurs anywhere in the response. -/

def TITLE_MARK : List Char := ("TITLE:").toList

def DESC_MARK : List Char := ("DESCRIPTION:").toList

/-- One step of the line loop in `haddockify` (lines 226-230). -/
def parseStep (acc : List Char × List Char) (line : List Char) :
    List Char × List Char :=
  if TITLE_MARK.isPrefixOf line then (pyStrip (replaceAll TITLE_MARK line), acc.2)
  else if DESC_MARK.isPrefixOf line then (acc.1, pyStrip (replaceAll DESC_MARK line))
  else acc

/-- The parsing part of haddock.py `haddockify` (lines 220-237): from the
raw model response to the `(title, description)` pair. -/
def parseResponse (response_text : List Char) : List Char × List Char :=
  let p := (splitLines response_text).foldl parseStep ([], [])
  match findSub DESC_MARK response_text with
  | some i => (p.1, pyStrip (response_text.drop (i + DESC_MARK.length)))
  | none => p

/-- The last element of a list satisfying `p`, if any. -/
def lastMatching (p : List Char → Bool) : List (List Char) → Option (List Char)
  | [] => none
  | l :: ls =>
    match lastMatching p ls with
    | some r => some r
    | none => if p l then some l else none

/-- The title that `parseResponse` actually computes: the last line
beginning with `"TITLE:"`, with every occurrence of `"TITLE:"` removed,
stripped; empty when no line starts with the marker. -/
def codeTitle (response_text : List Char) : List Char :=
  match lastMatching (fun l => TITLE_MARK.isPrefixOf l) (splitLines response_text) with
  | some l => pyStrip (replaceAll TITLE_MARK l)
  | none => []

/-- The description that `parseResponse` computes: everything after the
first `"DESCRIPTION:"` marker, stripped; empty when the marker is absent. -/
def codeDesc (response_text : List Char) : List Char :=
  match findSub DESC_MARK response_text with
  | some i => pyStrip (response_text.drop (i + DESC_MARK.length))
  | none => []

/-- Title extraction as claim C2 words it: the text after the `"TITLE:"`
prefix of the title line, trimmed. -/
def claimTitleOfLine (line : List Char) : List Char :=
  pyStrip (line.drop TITLE_MARK.length)

theorem parseStep_fst (acc : List Char × List Char) (line : List Char) :
    (parseStep acc line).1 =
      if TITLE_MARK.isPrefixOf line then pyStrip (replaceAll TITLE_MARK line)
      else acc.1 := by
  unfold parseStep
  split_ifs <;> rfl

theorem parseStep_snd_of_not_desc (acc : List Char × List Char) (line : List Char)
    (h : DESC_MARK.isPrefixOf line = false) : (parseStep acc line).2 = acc.2 := by
  unfold parseStep
  split_ifs with h1 h2
  · rfl
  · rw [h2] at h; exact absurd h (by simp)
  · rfl

theorem foldl_parseStep_fst (lines : List (List Char)) :
    ∀ acc : List Char × List Char,
      (lines.foldl parseStep acc).1 =
        match lastMatching (fun l => TITLE_MARK.isPrefixOf l) lines with
        | some r => pyStrip (replaceAll TITLE_MARK r)
        | none => acc.1 := by
  induction lines with
  | nil => intro acc; rfl
  | cons a ls ih =>
    intro acc
    rw [List.foldl_cons, ih]
    rcases h : lastMatching (fun l => TITLE_MARK.isPrefixOf l) ls with _ | r
    · simp only [lastMatching, h]
      rw [parseStep_fst]
      by_cases hb : TITLE_MARK.isPrefixOf a = true
      · rw [if_pos hb, if_pos hb]
      · rw [if_neg hb, if_neg hb]
    · simp only [lastMatching, h]

theorem foldl_parseStep_snd (lines : List (List Char))
    (h : ∀ l ∈ lines, DESC_MARK.isPrefixOf l = false) :
    ∀ acc : List Char × List Char, (lines.foldl parseStep acc).2 = acc.2 := by
  induction lines with
  | nil => intro acc; rfl
  | cons a ls ih =>
    intro acc
    rw [List.foldl_cons]
    have hrest : ∀ l ∈ ls, DESC_MARK.isPrefixOf l = false :=
      fun l hl => h l (List.mem_cons_of_mem _ hl)
    rw [ih hrest]
    exact parseStep_snd_of_not_desc acc a (h a (List.mem_cons_self a ls))

theorem splitLines_cons_head (cs : List Char) :
    ∃ l ls, splitLines cs = l :: ls ∧ l <+: cs := by
  induction cs with
  | nil => exact ⟨[], [], rfl, List.nil_prefix⟩
  | cons c cs ih =>
    by_cases hc : c = '\n'
    · exact ⟨[], splitLines cs, by simp [splitLines, hc], List.nil_prefix⟩
    · obtain ⟨l, ls, hsplit, hpre⟩ := ih
      exact ⟨c :: l, ls, by simp [splitLines, hc, hsplit],
        List.cons_prefix_cons.mpr ⟨rfl, hpre⟩⟩

theorem findSub_none_cons {pat : List Char} {c : Char} {cs : List Char}
    (h : findSub pat (c :: cs) = none) :
    pat.isPrefixOf (c :: cs) = false ∧ findSub pat cs = none := by
  unfold findSub at h
  by_cases hp : pat.isPrefixOf (c :: cs)
  · simp [hp] at h
  · refine ⟨by simp [hp], ?_⟩
    simp only [hp, if_false, Bool.false_eq_true] at h
    exact Option.map_eq_none'.mp h

theorem findSub_none_no_line (pat : List Char) :
    ∀ text : List Char, findSub pat text = none →
      ∀ l ∈ splitLines text, pat.isPrefixOf l = false := by
  intro text
  induction text with
  | nil =>
    intro h l hl
    simp only [splitLines, List.mem_singleton] at hl
    subst hl
    unfold findSub at h
    by_cases hp : pat.isEmpty
    · simp [hp] at h
    · cases pat with
      | nil => simp at hp
      | cons p ps => rfl
  | cons c cs ih =>
    intro h l hl
    obtain ⟨hnp, hrest⟩ := findSub_none_cons h
    by_cases hc : c = '\n'
    · subst hc
      simp only [splitLines, if_true, List.mem_cons] at hl
      rcases hl with hl | hl
      · subst hl
        cases pat with
        | nil => simp [List.isPrefixOf] at hnp
        | cons p ps => rfl
      · exact ih hrest l hl
    · obtain ⟨l₀, ls₀, hsp, hpre⟩ := splitLines_cons_head cs
      have hthis : splitLines (c :: cs) = (c :: l₀) :: ls₀ := by
        simp [splitLines, hc, hsp]
      rw [hthis, List.mem_cons] at hl
      rcases hl with rfl | hl
      · cases hcon : pat.isPrefixOf (c :: l₀)
        · rfl
        · exfalso
          have hppre : pat <+: c :: l₀ := List.isPrefixOf_iff_prefix.mp hcon
          have htrans : pat <+: c :: cs :=
            hppre.trans (List.cons_prefix_cons.mpr ⟨rfl, hpre⟩)
          rw [← List.isPrefixOf_iff_prefix] at htrans
          rw [htrans] at hnp
          exact Bool.true_eq_false.mp hnp
      · refine ih hrest l ?_
        rw [hsp]
        exact List.mem_cons_of_mem _ hl

/-- C2 (amended): for every model response, the parser returns as title
the LAST line beginning with "TITLE:" with every occurrence of the
substring "TITLE:" removed and the result trimmed (not merely the text
after the prefix), and as description everything after the first
"DESCRIPTION:" marker to the end of the response, trimmed; a missing
marker yields the empty string.  The worked example of the claim holds:
"TITLE: Foo\nDESCRIPTION: Bar\nBaz" gives title "Foo" and description
"Bar\nBaz", and a missing DESCRIPTION marker gives an empty description. -/
theorem parseResponse_characterization :
    (∀ text : List Char, parseResponse text = (codeTitle text, codeDesc text)) ∧
    parseResponse ("TITLE: Foo\nDESCRIPTION: Bar\nBaz").toList =
      (("Foo").toList, ("Bar\nBaz").toList) ∧
    parseResponse ("TITLE: Foo\nBar").toList = (("Foo").toList, []) := by
  refine ⟨?_, by decide, by decide⟩
  intro text
  unfold parseResponse codeTitle codeDesc
  rcases hf : findSub DESC_MARK text with _ | i
  · have hno := findSub_none_no_line DESC_MARK text hf
    have h1 := foldl_parseStep_fst (splitLines text) ([], [])
    have h2 := foldl_parseStep_snd (splitLines text) hno ([], [])
    exact Prod.ext h1 h2
  · exact Prod.ext (foldl_parseStep_fst (splitLines text) ([], [])) rfl

/-- C2 counterexample: on the single-line response "TITLE: x TITLE: y"
the code computes the title "x  y" (every occurrence of "TITLE:"
removed), not the claimed "x TITLE: y" (text after the prefix, trimmed). -/
theorem parseResponse_title_cex :
    (parseResponse ("TITLE: x TITLE: y").toList).1 = ("x  y").toList ∧
    (parseResponse ("TITLE: x TITLE: y").toList).1 ≠
      claimTitleOfLine ("TITLE: x TITLE: y").toList := by decide

/-! ### Formatter claims C8 and C9. -/

/-- `format_duration` as the spec words it: hour, minute and second
parts in order, each zero-valued part omitted, except that the seconds
part always appears when hours and minutes are both zero. -/
def durationSpec (s : Nat) : String :=
  let h := s / 3600
  let m := s % 3600 / 60
  let z := s % 60
  String.intercalate " "
    ((if h ≠ 0 then [toString h ++ "h"] else []) ++
     (if m ≠ 0 then [toString m ++ "m"] else []) ++
     (if z ≠ 0 ∨ (h = 0 ∧ m = 0) then [toString z ++ "s"] else []))

/-- C8: for every non-negative number of seconds the duration formatter
produces the compact "Xh Ym Zs" rendering that omits zero-valued larger
units but always shows the seconds part when everything else is zero;
0 s is "0s", 3661 s is "1h 1m 1s" and 90 s is "1m 30s". -/
theorem format_duration_spec :
    (∀ s : Nat, format_duration s = durationSpec s) ∧
    format_duration 0 = "0s" ∧
    format_duration 3661 = "1h 1m 1s" ∧
    format_duration 90 = "1m 30s" := by
  refine ⟨?_, by decide, by decide, by decide⟩
  intro s
  unfold format_duration durationSpec
  by_cases h1 : s / 3600 = 0 <;> by_cases h2 : s % 3600 / 60 = 0 <;>
    by_cases h3 : s % 60 = 0 <;> simp [h1, h2, h3]

/-- Two-digit rendering of every seconds value below 60. -/
theorem pad2_length_lt : ∀ n : Nat, n < 60 → (pad2 (n : ℤ)).length = 2 := by
  decide

/-- The Python float modulus lands in `[0, b)` for a positive modulus,
expressed through `Int.fract`. -/
theorem pyMod_sixty_bounds (a : ℚ) : 0 ≤ pyMod a 60 ∧ pyMod a 60 < 60 := by
  have hfr : pyMod a 60 = 60 * Int.fract (a / 60) := by
    rw [pyMod, qfloor_eq_floor, Int.fract]
    ring
  constructor
  · rw [hfr]
    exact mul_nonneg (by norm_num) (Int.fract_nonneg _)
  · rw [hfr]
    have := Int.fract_lt_one (a / 60)
    nlinarith

/-- C9: the pace formatter maps absent input and 0 to "N/A"; 2.68 m/s
maps to "10:00 /mi"; and every positive speed maps to a
minutes:seconds-per-mile string whose seconds component is an integer
in [0, 59] (fractional seconds truncated toward zero) rendered with
exactly two digits. -/
theorem format_pace_spec :
    format_pace none = "N/A" ∧
    format_pace (some 0) = "N/A" ∧
    format_pace (some (268 / 100)) = "10:00 /mi" ∧
    ∀ v : ℚ, 0 < v → ∃ m z : ℤ, 0 ≤ z ∧ z < 60 ∧ (pad2 z).length = 2 ∧
      format_pace (some v) = toString m ++ ":" ++ pad2 z ++ " /mi" := by
  refine ⟨rfl, by simp [format_pace], ?_, ?_⟩
  · norm_num [format_pace, qfloor, pyInt, pyMod, Rat.floor_def']
    decide
  · intro v hv
    have hne : v ≠ 0 := ne_of_gt hv
    obtain ⟨hm0, hm60⟩ := pyMod_sixty_bounds (160934 / 100 / v)
    have hz : pyInt (pyMod (160934 / 100 / v) 60) = ⌊pyMod (160934 / 100 / v) 60⌋ := by
      rw [pyInt, if_pos hm0, qfloor_eq_floor]
    refine ⟨qfloor (160934 / 100 / v / 60), pyInt (pyMod (160934 / 100 / v) 60),
      ?_, ?_, ?_, ?_⟩
    · rw [hz]
      exact Int.floor_nonneg.mpr hm0
    · rw [hz]
      exact Int.floor_lt.mpr (by exact_mod_cast hm60)
    · have h0 : 0 ≤ pyInt (pyMod (160934 / 100 / v) 60) := by
        rw [hz]; exact Int.floor_nonneg.mpr hm0
      have h60 : pyInt (pyMod (160934 / 100 / v) 60) < 60 := by
        rw [hz]; exact Int.floor_lt.mpr (by exact_mod_cast hm60)
      have hnat := pad2_length_lt (pyInt (pyMod (160934 / 100 / v) 60)).toNat (by omega)
      rwa [Int.toNat_of_nonneg h0] at hnat
    · simp only [format_pace, if_neg hne]

/-- C9 witness: the general clause of `format_pace_spec` instantiated at
the concrete positive speed 1 m/s. -/
theorem format_pace_spec_witness :
    0 < (1 : ℚ) ∧ ∃ m z : ℤ, 0 ≤ z ∧ z < 60 ∧ (pad2 z).length = 2 ∧
      format_pace (some 1) = toString m ++ ":" ++ pad2 z ++ " /mi" :=
  ⟨by norm_num, format_pace_spec.2.2.2 1 (by norm_num)⟩

/-! ### Activity records and build_workout_summary (haddock.py 130-175).

An activity is the JSON object returned by the Strava API; the fields the
program reads are modelled with `Option` for absence, numbers as `ℚ`
except the integer `elapsed_time`. -/

structure Activity where
  id : Nat
  type : Option String
  name : Option String
  start_date_local : Option String
  elapsed_time : Option Nat
  distance : Option ℚ
  average_speed : Option ℚ
  average_heartrate : Option ℚ
  max_heartrate : Option ℚ
  calories : Option ℚ
  total_elevation_gain : Option ℚ
  description : Option String
deriving DecidableEq

/-- Python truthiness of `activity.get(k)` or `activity.get(k, 0)` for a
numeric field: both `None` and `0` are falsy. -/
def truthyQ : Option ℚ → Bool
  | none => false
  | some q => q ≠ 0

/-- Python truthiness of a string. -/
def truthyS (s : String) : Bool := s ≠ ""

/-- The run-type test `activity.get("type") in ["Run", "VirtualRun"]`. -/
def isRunType : Option String → Bool
  | some "Run" => true
  | some "VirtualRun" => true
  | _ => false

def mandatoryLines (a : Activity) : List String :=
  ["Activity Type: " ++ a.type.getD "Workout",
   "Original Title: " ++ a.name.getD "Untitled",
   "Duration: " ++ format_duration (a.elapsed_time.getD 0)]

def distanceLine (a : Activity) : String :=
  "Distance: " ++ format_distance (a.distance.getD 0)

def paceLine (a : Activity) : String :=
  "Pace: " ++ format_pace (some (a.average_speed.getD 0))

def avgHrLine (a : Activity) : String :=
  "Average Heart Rate: " ++ formatFixed 0 (a.average_heartrate.getD 0) ++ " bpm"

def maxHrLine (a : Activity) : String :=
  "Max Heart Rate: " ++ formatFixed 0 (a.max_heartrate.getD 0) ++ " bpm"

def caloriesLine (a : Activity) : String :=
  "Calories: " ++ formatFixed 0 (a.calories.getD 0)

def elevationLine (a : Activity) : String :=
  "Elevation Gain: " ++
    formatFixed 0 (a.total_elevation_gain.getD 0 * (328084 / 100000)) ++ " ft"

def descriptionLine (a : Activity) : String :=
  "Original Description: " ++ a.description.getD ""

/-- The `lines` list of haddock.py `build_workout_summary` (130-175),
with the same append-if-truthy sequence as the source. -/
def summaryLines (a : Activity) : List String :=
  let lines := mandatoryLines a
  let lines := if truthyQ a.distance then lines ++ [distanceLine a] else lines
  let lines :=
    if truthyQ a.average_speed && isRunType a.type then lines ++ [paceLine a]
    else lines
  let lines := if truthyQ a.average_heartrate then lines ++ [avgHrLine a] else lines
  let lines := if truthyQ a.max_heartrate then lines ++ [maxHrLine a] else lines
  let lines := if truthyQ a.calories then lines ++ [caloriesLine a] else lines
  let lines :=
    if truthyQ a.total_elevation_gain then lines ++ [elevationLine a] else lines
  if truthyS (a.description.getD "") then lines ++ [descriptionLine a] else lines

def build_workout_summary (a : Activity) : String :=
  String.intercalate "\n" (summaryLines a)

/-- A singleton block present exactly when its condition holds. -/
def optBlock (c : Bool) (line : String) : List String :=
  if c then [line] else []

/-- C3 (amended): the summary is the fixed-order line list in which the
type, original-title and duration lines are always present (with the
defaults "Workout", "Untitled" and 0 seconds when the fields are
absent), each remaining field contributes its line exactly when it is
present and non-zero, and the pace line additionally requires a
run-type activity; in particular a non-run activity with average speed
present has no pace line. -/
theorem build_workout_summary_structure :
    (∀ a : Activity, summaryLines a =
      mandatoryLines a ++
      optBlock (truthyQ a.distance) (distanceLine a) ++
      optBlock (truthyQ a.average_speed && isRunType a.type) (paceLine a) ++
      optBlock (truthyQ a.average_heartrate) (avgHrLine a) ++
      optBlock (truthyQ a.max_heartrate) (maxHrLine a) ++
      optBlock (truthyQ a.calories) (caloriesLine a) ++
      optBlock (truthyQ a.total_elevation_gain) (elevationLine a) ++
      optBlock (truthyS (a.description.getD "")) (descriptionLine a)) ∧
    (∀ a : Activity, truthyQ a.average_speed = true → isRunType a.type = false →
      summaryLines a =
      mandatoryLines a ++
      optBlock (truthyQ a.distance) (distanceLine a) ++
      optBlock (truthyQ a.average_heartrate) (avgHrLine a) ++
      optBlock (truthyQ a.max_heartrate) (maxHrLine a) ++
      optBlock (truthyQ a.calories) (caloriesLine a) ++
      optBlock (truthyQ a.total_elevation_gain) (elevationLine a) ++
      optBlock (truthyS (a.description.getD "")) (descriptionLine a)) := by
  have hmain : ∀ a : Activity, summaryLines a =
      mandatoryLines a ++
      optBlock (truthyQ a.distance) (distanceLine a) ++
      optBlock (truthyQ a.average_speed && isRunType a.type) (paceLine a) ++
      optBlock (truthyQ a.average_heartrate) (avgHrLine a) ++
      optBlock (truthyQ a.max_heartrate) (maxHrLine a) ++
      optBlock (truthyQ a.calories) (caloriesLine a) ++
      optBlock (truthyQ a.total_elevation_gain) (elevationLine a) ++
      optBlock (truthyS (a.description.getD "")) (descriptionLine a) := by
    intro a
    unfold summaryLines optBlock
    split_ifs <;> simp [List.append_assoc]
  refine ⟨hmain, ?_⟩
  intro a hsp hrun
  rw [hmain a, hsp, hrun]
  simp [optBlock]

/-- An activity with every optional field absent. -/
def emptyActivity : Activity :=
  ⟨0, none, none, none, none, none, none, none, none, none, none, none⟩

/-- C3 counterexample: for an activity with every field absent the
summary still contains the type, title and duration lines (with default
values), so the summary does not contain only fields that are present
and non-zero. -/
theorem build_workout_summary_cex :
    emptyActivity.elapsed_time = none ∧
    emptyActivity.type = none ∧
    build_workout_summary emptyActivity =
      "Activity Type: Workout\nOriginal Title: Untitled\nDuration: 0s" ∧
    "Duration: 0s" ∈ summaryLines emptyActivity := by decide

/-- A non-run activity that has an average speed. -/
def rideActivity : Activity :=
  ⟨7, some "Ride", some "Morning Ride", none, some 60, none, some 5, none,
    none, none, none, none⟩

/-- Witness for the conditional clause of the C3 theorem: a Ride with
average speed 5 m/s satisfies its hypotheses, and its summary has no
pace block. -/
theorem build_workout_summary_structure_witness :
    truthyQ rideActivity.average_speed = true ∧
    isRunType rideActivity.type = false ∧
    summaryLines rideActivity =
      mandatoryLines rideActivity ++
      optBlock (truthyQ rideActivity.distance) (distanceLine rideActivity) ++
      optBlock (truthyQ rideActivity.average_heartrate) (avgHrLine rideActivity) ++
      optBlock (truthyQ rideActivity.max_heartrate) (maxHrLine rideActivity) ++
      optBlock (truthyQ rideActivity.calories) (caloriesLine rideActivity) ++
      optBlock (truthyQ rideActivity.total_elevation_gain) (elevationLine rideActivity) ++
      optBlock (truthyS (rideActivity.description.getD ""))
        (descriptionLine rideActivity) :=
  ⟨by decide, by decide,
    build_workout_summary_structure.2 rideActivity (by decide) (by decide)⟩

/-! ### The authenticated request wrapper (haddock.py 36-75).

State: the module-level credential globals and the `.env` file.  The
network is an oracle supplying the response of the first request, of the
token-endpoint POST (with the token pair parsed from its JSON body),
and of the retried request.  Each call produces an event trace, the new
state, and either the JSON body or the status of the raised
`HTTPError`. -/

structure Response where
  status : Nat
  body : String
deriving DecidableEq

structure TokenPair where
  access_token : String
  refresh_token : String
deriving DecidableEq

/-- The module-level globals of haddock.py (lines 25-28). -/
structure Globals where
  clientId : String
  clientSecret : String
  accessToken : String
  refreshToken : String
deriving DecidableEq

/-- The persisted `.env` token entries written by `set_key`. -/
structure EnvFile where
  access : String
  refresh : String
deriving DecidableEq

inductive ApiEvent where
  | httpCall (method url bearer : String)
  | tokenPost (clientId clientSecret grantType refreshTok : String)
  | envWrite (key value : String)
  | printOut (s : String)
deriving DecidableEq

/-- `requests.Response.raise_for_status` raises exactly for the 4xx and
5xx status codes. -/
def httpErrorRange (s : Nat) : Bool := 400 ≤ s && s < 600

/-- Oracle for one token-endpoint POST: the wire response and the token
pair parsed from its body. -/
structure RefreshWire where
  resp : Response
  toks : TokenPair

/-- haddock.py `refresh_access_token` (lines 36-55): POST the stored
refresh token, raise on an error status, otherwise persist both new
tokens to `.env` and return the new access token. -/
def refresh_access_token (g : Globals) (env : EnvFile) (w : RefreshWire) :
    List ApiEvent × EnvFile × Except Nat String :=
  let ev := [ApiEvent.tokenPost g.clientId g.clientSecret "refresh_token" g.refreshToken]
  if httpErrorRange w.resp.status then (ev, env, Except.error w.resp.status)
  else
    (ev ++ [ApiEvent.envWrite "STRAVA_ACCESS_TOKEN" w.toks.access_token,
            ApiEvent.envWrite "STRAVA_REFRESH_TOKEN" w.toks.refresh_token],
     ⟨w.toks.access_token, w.toks.refresh_token⟩,
     Except.ok w.toks.access_token)

/-- Oracle for one `strava_request` call. -/
structure WireOracle where
  first : Response
  refresh : RefreshWire
  retry : Response

def STRAVA_API_BASE : String := "https://www.strava.com/api/v3"

/-- haddock.py `strava_request` (lines 58-75): issue the request with the
current bearer token; on a 401 refresh once (updating the global access
token only) and retry once; finally `raise_for_status` and return the
JSON body. -/
def strava_request (method endpoint : String) (g : Globals) (env : EnvFile)
    (w : WireOracle) : List ApiEvent × Globals × EnvFile × Except Nat String :=
  let url := STRAVA_API_BASE ++ endpoint
  let ev0 := [ApiEvent.httpCall method url g.accessToken]
  if w.first.status = 401 then
    let r := refresh_access_token g env w.refresh
    let ev1 := ev0 ++ [ApiEvent.printOut "Token expired, refreshing..."] ++ r.1
    match r.2.2 with
    | Except.error s => (ev1, g, r.2.1, Except.error s)
    | Except.ok newTok =>
      let g1 : Globals := ⟨g.clientId, g.clientSecret, newTok, g.refreshToken⟩
      let ev2 := ev1 ++ [ApiEvent.httpCall method url newTok]
      if httpErrorRange w.retry.status then (ev2, g1, r.2.1, Except.error w.retry.status)
      else (ev2, g1, r.2.1, Except.ok w.retry.body)
  else
    if httpErrorRange w.first.status then (ev0, g, env, Except.error w.first.status)
    else (ev0, g, env, Except.ok w.first.body)

/-- C1 (amended): when the first response is 401 and the token-endpoint
POST does not itself return an error status, the wrapper performs
exactly one refresh (a grant_type=refresh_token POST with the stored
refresh token), persists both new tokens, and retries the original
request exactly once with the new access token - the trace is exactly
one tokenPost and two httpCalls whatever the retried status is, so a
second 401 triggers no further refresh or retry.  The retried response
propagates as a hard failure exactly when its status is 4xx or 5xx
(other non-2xx statuses, e.g. 3xx, are returned as success). -/
theorem strava_request_refresh_retry (method endpoint : String) (g : Globals)
    (env : EnvFile) (w : WireOracle) (h401 : w.first.status = 401)
    (hok : httpErrorRange w.refresh.resp.status = false) :
    (strava_request method endpoint g env w).1 =
      [ApiEvent.httpCall method (STRAVA_API_BASE ++ endpoint) g.accessToken,
       ApiEvent.printOut "Token expired, refreshing...",
       ApiEvent.tokenPost g.clientId g.clientSecret "refresh_token" g.refreshToken,
       ApiEvent.envWrite "STRAVA_ACCESS_TOKEN" w.refresh.toks.access_token,
       ApiEvent.envWrite "STRAVA_REFRESH_TOKEN" w.refresh.toks.refresh_token,
       ApiEvent.httpCall method (STRAVA_API_BASE ++ endpoint) w.refresh.toks.access_token] ∧
    (strava_request method endpoint g env w).2.1 =
      ⟨g.clientId, g.clientSecret, w.refresh.toks.access_token, g.refreshToken⟩ ∧
    (strava_request method endpoint g env w).2.2.1 =
      ⟨w.refresh.toks.access_token, w.refresh.toks.refresh_token⟩ ∧
    (strava_request method endpoint g env w).2.2.2 =
      (if httpErrorRange w.retry.status then Except.error w.retry.status
       else Except.ok w.retry.body) := by
  unfold strava_request refresh_access_token
  rw [h401, hok]
  cases hr : httpErrorRange w.retry.status <;> simp [hr]

/-- Witness for C1: a concrete 401-then-refresh-then-401 exchange. -/
theorem strava_request_refresh_retry_witness :
    (⟨401, "unauthorized"⟩ : Response).status = 401 ∧
    httpErrorRange (200 : Nat) = false ∧
    ((strava_request "GET" "/athlete/activities"
        ⟨"cid", "sec", "oldA", "oldR"⟩ ⟨"oldA", "oldR"⟩
        ⟨⟨401, "unauthorized"⟩, ⟨⟨200, "tokenjson"⟩, ⟨"newA", "newR"⟩⟩,
         ⟨401, "unauthorized again"⟩⟩).1 =
      [ApiEvent.httpCall "GET" (STRAVA_API_BASE ++ "/athlete/activities") "oldA",
       ApiEvent.printOut "Token expired, refreshing...",
       ApiEvent.tokenPost "cid" "sec" "refresh_token" "oldR",
       ApiEvent.envWrite "STRAVA_ACCESS_TOKEN" "newA",
       ApiEvent.envWrite "STRAVA_REFRESH_TOKEN" "newR",
       ApiEvent.httpCall "GET" (STRAVA_API_BASE ++ "/athlete/activities") "newA"] ∧
     (strava_request "GET" "/athlete/activities"
        ⟨"cid", "sec", "oldA", "oldR"⟩ ⟨"oldA", "oldR"⟩
        ⟨⟨401, "unauthorized"⟩, ⟨⟨200, "tokenjson"⟩, ⟨"newA", "newR"⟩⟩,
         ⟨401, "unauthorized again"⟩⟩).2.1 = ⟨"cid", "sec", "newA", "oldR"⟩ ∧
     (strava_request "GET" "/athlete/activities"
        ⟨"cid", "sec", "oldA", "oldR"⟩ ⟨"oldA", "oldR"⟩
        ⟨⟨401, "unauthorized"⟩, ⟨⟨200, "tokenjson"⟩, ⟨"newA", "newR"⟩⟩,
         ⟨401, "unauthorized again"⟩⟩).2.2.1 = ⟨"newA", "newR"⟩ ∧
     (strava_request "GET" "/athlete/activities"
        ⟨"cid", "sec", "oldA", "oldR"⟩ ⟨"oldA", "oldR"⟩
        ⟨⟨401, "unauthorized"⟩, ⟨⟨200, "tokenjson"⟩, ⟨"newA", "newR"⟩⟩,
         ⟨401, "unauthorized again"⟩⟩).2.2.2 =
       (if httpErrorRange (401 : Nat) then Except.error (401 : Nat)
        else Except.ok "unauthorized again")) := by
  refine ⟨rfl, by decide, ?_⟩
  exact strava_request_refresh_retry "GET" "/athlete/activities"
    ⟨"cid", "sec", "oldA", "oldR"⟩ ⟨"oldA", "oldR"⟩
    ⟨⟨401, "unauthorized"⟩, ⟨⟨200, "tokenjson"⟩, ⟨"newA", "newR"⟩⟩,
     ⟨401, "unauthorized again"⟩⟩ rfl (by decide)

/-- C1 counterexample: with a 401 first response, a successful refresh
and a 303 (non-2xx, non-error) status on the retried request, the
wrapper returns the body as a success, whereas the claim requires every
non-2xx retried status to propagate as a hard failure. -/
theorem strava_request_retry_303_cex :
    ¬(200 ≤ 303 ∧ 303 < 300) ∧
    (strava_request "GET" "/x" ⟨"cid", "sec", "oldA", "oldR"⟩ ⟨"oldA", "oldR"⟩
      ⟨⟨401, "unauthorized"⟩, ⟨⟨200, "tokenjson"⟩, ⟨"newA", "newR"⟩⟩,
       ⟨303, "redirect body"⟩⟩).2.2.2 = Except.ok "redirect body" :=
  ⟨by decide, rfl⟩

/-- C10: a refresh persists both new tokens to `.env` and replaces the
in-process access token, but the in-process refresh-token global keeps
its startup value, so a second 401 in the same run POSTs the startup
refresh token and never the newly received one. -/
theorem refresh_token_stale (g : Globals) (env : EnvFile) (w1 w2 : WireOracle)
    (m1 e1 m2 e2 : String) (h1 : w1.first.status = 401)
    (hr1 : httpErrorRange w1.refresh.resp.status = false)
    (h2 : w2.first.status = 401)
    (hdiff : w1.refresh.toks.refresh_token ≠ g.refreshToken) :
    (strava_request m1 e1 g env w1).2.2.1 =
      ⟨w1.refresh.toks.access_token, w1.refresh.toks.refresh_token⟩ ∧
    (strava_request m1 e1 g env w1).2.1.accessToken = w1.refresh.toks.access_token ∧
    (strava_request m1 e1 g env w1).2.1.refreshToken = g.refreshToken ∧
    ApiEvent.tokenPost g.clientId g.clientSecret "refresh_token" g.refreshToken ∈
      (strava_request m2 e2 (strava_request m1 e1 g env w1).2.1
        (strava_request m1 e1 g env w1).2.2.1 w2).1 ∧
    ∀ c s : String,
      ApiEvent.tokenPost c s "refresh_token" w1.refresh.toks.refresh_token ∉
        (strava_request m2 e2 (strava_request m1 e1 g env w1).2.1
          (strava_request m1 e1 g env w1).2.2.1 w2).1 := by
  have hg1 : (strava_request m1 e1 g env w1).2.1 =
      ⟨g.clientId, g.clientSecret, w1.refresh.toks.access_token, g.refreshToken⟩ := by
    unfold strava_request refresh_access_token
    rw [h1, hr1]
    cases hr : httpErrorRange w1.retry.status <;> simp [hr]
  have henv1 : (strava_request m1 e1 g env w1).2.2.1 =
      ⟨w1.refresh.toks.access_token, w1.refresh.toks.refresh_token⟩ := by
    unfold strava_request refresh_access_token
    rw [h1, hr1]
    cases hr : httpErrorRange w1.retry.status <;> simp [hr]
  refine ⟨henv1, by rw [hg1], by rw [hg1], ?_, ?_⟩
  · rw [hg1, henv1]
    unfold strava_request refresh_access_token
    rw [h2]
    cases hw : httpErrorRange w2.refresh.resp.status <;>
      cases hr : httpErrorRange w2.retry.status <;> simp [hw, hr]
  · intro c s
    rw [hg1, henv1]
    unfold strava_request refresh_access_token
    rw [h2]
    cases hw : httpErrorRange w2.refresh.resp.status <;>
      cases hr : httpErrorRange w2.retry.status <;> simp [hw, hr, hdiff]

/-- Witness for C10: a concrete run in which both calls hit a 401; the
second refresh POST carries the startup refresh token "oldR", not the
newly received "newR". -/
theorem refresh_token_stale_witness :
    (⟨401, "a"⟩ : Response).status = 401 ∧
    httpErrorRange (200 : Nat) = false ∧
    "newR" ≠ "oldR" ∧
    ((strava_request "GET" "/a" ⟨"cid", "sec", "oldA", "oldR"⟩ ⟨"oldA", "oldR"⟩
        ⟨⟨401, "a"⟩, ⟨⟨200, "t"⟩, ⟨"newA", "newR"⟩⟩, ⟨200, "ok"⟩⟩).2.2.1 =
        ⟨"newA", "newR"⟩ ∧
     (strava_request "GET" "/a" ⟨"cid", "sec", "oldA", "oldR"⟩ ⟨"oldA", "oldR"⟩
        ⟨⟨401, "a"⟩, ⟨⟨200, "t"⟩, ⟨"newA", "newR"⟩⟩, ⟨200, "ok"⟩⟩).2.1.accessToken =
        "newA" ∧
     (strava_request "GET" "/a" ⟨"cid", "sec", "oldA", "oldR"⟩ ⟨"oldA", "oldR"⟩
        ⟨⟨401, "a"⟩, ⟨⟨200, "t"⟩, ⟨"newA", "newR"⟩⟩, ⟨200, "ok"⟩⟩).2.1.refreshToken =
        "oldR" ∧
     ApiEvent.tokenPost "cid" "sec" "refresh_token" "oldR" ∈
       (strava_request "GET" "/b"
         (strava_request "GET" "/a" ⟨"cid", "sec", "oldA", "oldR"⟩ ⟨"oldA", "oldR"⟩
           ⟨⟨401, "a"⟩, ⟨⟨200, "t"⟩, ⟨"newA", "newR"⟩⟩, ⟨200, "ok"⟩⟩).2.1
         (strava_request "GET" "/a" ⟨"cid", "sec", "oldA", "oldR"⟩ ⟨"oldA", "oldR"⟩
           ⟨⟨401, "a"⟩, ⟨⟨200, "t"⟩, ⟨"newA", "newR"⟩⟩, ⟨200, "ok"⟩⟩).2.2.1
         ⟨⟨401, "b"⟩, ⟨⟨400, "bad"⟩, ⟨"x", "y"⟩⟩, ⟨200, "ok"⟩⟩).1 ∧
     ∀ c s : String,
       ApiEvent.tokenPost c s "refresh_token" "newR" ∉
         (strava_request "GET" "/b"
           (strava_request "GET" "/a" ⟨"cid", "sec", "oldA", "oldR"⟩ ⟨"oldA", "oldR"⟩
             ⟨⟨401, "a"⟩, ⟨⟨200, "t"⟩, ⟨"newA", "newR"⟩⟩, ⟨200, "ok"⟩⟩).2.1
           (strava_request "GET" "/a" ⟨"cid", "sec", "oldA", "oldR"⟩ ⟨"oldA", "oldR"⟩
             ⟨⟨401, "a"⟩, ⟨⟨200, "t"⟩, ⟨"newA", "newR"⟩⟩, ⟨200, "ok"⟩⟩).2.2.1
           ⟨⟨401, "b"⟩, ⟨⟨400, "bad"⟩, ⟨"x", "y"⟩⟩, ⟨200, "ok"⟩⟩).1) :=
  ⟨rfl, by decide, by decide,
    refresh_token_stale ⟨"cid", "sec", "oldA", "oldR"⟩ ⟨"oldA", "oldR"⟩
      ⟨⟨401, "a"⟩, ⟨⟨200, "t"⟩, ⟨"newA", "newR"⟩⟩, ⟨200, "ok"⟩⟩
      ⟨⟨401, "b"⟩, ⟨⟨400, "bad"⟩, ⟨"x", "y"⟩⟩, ⟨200, "ok"⟩⟩
      "GET" "/a" "GET" "/b" rfl (by decide) rfl (by decide)⟩

/-! ### The authorization flow (auth.py).

`auth_main` models auth.py `main` (lines 93-151): the credential guard,
the browser/authorize step, the local callback (its captured code is an
oracle input), and the code-for-tokens exchange. -/

/-- Python truthiness of `os.getenv(...)`: `None` and `""` are falsy. -/
def pyTruthyStr : Option String → Bool
  | none => false
  | some s => s ≠ ""

def PLACEHOLDER_SECRET : String := "your_client_secret_here"

/-- The guard of auth.py `main` (line 94). -/
def credCheckFails (cid csec : Option String) : Bool :=
  !pyTruthyStr cid || !pyTruthyStr csec || csec == some PLACEHOLDER_SECRET

inductive AuthEvent where
  | consolePrint (s : String)
  | browserOpen (url : String)
  | tokenExchangePost (clientId clientSecret code : String)
  | envWrite (key value : String)
deriving DecidableEq

/-- auth.py `get_auth_url` (lines 67-75). -/
def get_auth_url (cid : String) : String :=
  "https://www.strava.com/oauth/authorize?client_id=" ++ cid ++
    "&redirect_uri=http://localhost:8000/callback&response_type=code" ++
    "&scope=read,activity:read_all,activity:write"

/-- auth.py `main` (lines 93-151) as an event trace.  `code` is the
authorization code the local callback server eventually captures,
`exch` the token-endpoint response with `toks` its parsed body and
`athleteName` the athlete display name read from it. -/
def auth_main (cid csec : Option String) (code : String) (exch : Response)
    (toks : TokenPair) (athleteName : String) : List AuthEvent :=
  if credCheckFails cid csec then
    [AuthEvent.consolePrint
       "ERROR: Please set STRAVA_CLIENT_ID and STRAVA_CLIENT_SECRET in .env file",
     AuthEvent.consolePrint "Copy .env.example to .env and fill in your credentials."]
  else
    [AuthEvent.consolePrint "Strava OAuth Authentication",
     AuthEvent.consolePrint "This will open your browser to authorize the app.",
     AuthEvent.consolePrint "If browser doesn't open, visit this URL:",
     AuthEvent.consolePrint (get_auth_url (cid.getD "")),
     AuthEvent.browserOpen (get_auth_url (cid.getD "")),
     AuthEvent.consolePrint "Waiting for authorization...",
     AuthEvent.consolePrint "Got authorization code, exchanging for tokens...",
     AuthEvent.tokenExchangePost (cid.getD "") (csec.getD "") code] ++
    (if httpErrorRange exch.status then
      [AuthEvent.consolePrint "Error exchanging code:",
       AuthEvent.consolePrint exch.body]
    else
      [AuthEvent.consolePrint ("Success! Authenticated as: " ++ athleteName),
       AuthEvent.envWrite "STRAVA_ACCESS_TOKEN" toks.access_token,
       AuthEvent.envWrite "STRAVA_REFRESH_TOKEN" toks.refresh_token,
       AuthEvent.consolePrint "Tokens saved to .env file!",
       AuthEvent.consolePrint "You can now run: python haddock.py"])

/-- Does an event reach the network (browser authorize or token POST)? -/
def isNetworkEvent : AuthEvent → Bool
  | AuthEvent.browserOpen _ => true
  | AuthEvent.tokenExchangePost _ _ _ => true
  | _ => false

/-- C5 (amended): the authorization flow fails fast - a user-facing
error message and no network event at all - exactly when the client id
is absent or empty, the client secret is absent or empty, or the client
secret equals the placeholder "your_client_secret_here".  A placeholder
value in the client id is not detected. -/
theorem auth_main_guard :
    (∀ cid csec : Option String,
      credCheckFails cid csec = true ↔
        (cid = none ∨ cid = some "" ∨ csec = none ∨ csec = some "" ∨
         csec = some PLACEHOLDER_SECRET)) ∧
    (∀ (cid csec : Option String) (code : String) (exch : Response)
       (toks : TokenPair) (athleteName : String),
      credCheckFails cid csec = true →
        auth_main cid csec code exch toks athleteName =
          [AuthEvent.consolePrint
             "ERROR: Please set STRAVA_CLIENT_ID and STRAVA_CLIENT_SECRET in .env file",
           AuthEvent.consolePrint
             "Copy .env.example to .env and fill in your credentials."] ∧
        ∀ e ∈ auth_main cid csec code exch toks athleteName,
          isNetworkEvent e = false) := by
  constructor
  · intro cid csec
    rcases cid with _ | c <;> rcases csec with _ | s <;>
      simp [credCheckFails, pyTruthyStr, PLACEHOLDER_SECRET] <;> tauto
  · intro cid csec code exch toks athleteName hguard
    refine ⟨by rw [auth_main, if_pos hguard], ?_⟩
    intro e he
    rw [auth_main, if_pos hguard] at he
    simp only [List.mem_cons, List.not_mem_nil, or_false] at he
    rcases he with rfl | rfl <;> rfl

/-- Witness for C5: with the client secret set to the placeholder the
guard fires; the trace is the two error prints and contains no network
event. -/
theorem auth_main_guard_witness :
    credCheckFails (some "12345") (some "your_client_secret_here") = true ∧
    (auth_main (some "12345") (some "your_client_secret_here") "c" ⟨200, "b"⟩
        ⟨"a", "r"⟩ "A" =
      [AuthEvent.consolePrint
         "ERROR: Please set STRAVA_CLIENT_ID and STRAVA_CLIENT_SECRET in .env file",
       AuthEvent.consolePrint
         "Copy .env.example to .env and fill in your credentials."] ∧
     ∀ e ∈ auth_main (some "12345") (some "your_client_secret_here") "c" ⟨200, "b"⟩
        ⟨"a", "r"⟩ "A", isNetworkEvent e = false) :=
  ⟨by decide,
    auth_main_guard.2 (some "12345") (some "your_client_secret_here") "c" ⟨200, "b"⟩
      ⟨"a", "r"⟩ "A" (by decide)⟩

set_option maxRecDepth 4096 in
/-- C5 counterexample: a client id equal to the placeholder string with
a genuine secret passes the guard, and the flow then performs network
calls (the browser authorize step and the token-exchange POST),
contradicting the claim that a placeholder client id fails fast with no
network calls. -/
theorem auth_main_placeholder_id_cex :
    credCheckFails (some "your_client_secret_here") (some "s3cret") = false ∧
    AuthEvent.tokenExchangePost "your_client_secret_here" "s3cret" "c" ∈
      auth_main (some "your_client_secret_here") (some "s3cret") "c" ⟨200, "b"⟩
        ⟨"a", "r"⟩ "A" ∧
    AuthEvent.browserOpen (get_auth_url "your_client_secret_here") ∈
      auth_main (some "your_client_secret_here") (some "s3cret") "c" ⟨200, "b"⟩
        ⟨"a", "r"⟩ "A" := by decide

/-! ### Activity resolution in haddock.py main (lines 282-294).

The API is an oracle: `apiList n` is the JSON array returned by
`GET /athlete/activities?per_page=n`, `apiSingle i` the JSON value
returned by `GET /activities/i` (`none` standing for JSON null).  The
`activities` local of `main` holds `None` or a list whose elements may
be `None`, exactly as in Python. -/

/-- Python truthiness of an `int` command-line option: `None` and `0`
are falsy. -/
def pyTruthyNat : Option Nat → Bool
  | none => false
  | some n => n ≠ 0

/-- haddock.py `get_last_N_activities` (lines 77-81). -/
def get_last_N_activities (apiList : Nat → List Activity) (last_n : Nat) :
    Option (List Activity) :=
  let activities := apiList last_n
  if activities = [] then none else some activities

/-- haddock.py `get_latest_activity` (lines 83-88). -/
def get_latest_activity (apiList : Nat → List Activity) : Option Activity :=
  (apiList 1).head?

/-- The `activities` variable of `main` after the selection block
(lines 282-290). -/
def resolveActivities (argActivity argActivities : Option Nat)
    (apiList : Nat → List Activity) (apiSingle : Nat → Option Activity) :
    Option (List (Option Activity)) :=
  if pyTruthyNat argActivity then some [apiSingle (argActivity.getD 0)]
  else if pyTruthyNat argActivities then
    match get_last_N_activities apiList (argActivities.getD 0) with
    | none => none
    | some l => some (l.map some)
  else some [get_latest_activity apiList]

inductive FetchOutcome where
  | noneFound
  | typeErrorCrash
  | processing (acts : List Activity)
deriving DecidableEq

/-- The outcome of the emptiness check `if not activities` (lines
292-294) followed by the subscript `activity["id"]` of the processing
loop: a falsy `activities` reports "No activities found!"; a `None`
list element raises `TypeError` at the subscript. -/
def fetchOutcome (argActivity argActivities : Option Nat)
    (apiList : Nat → List Activity) (apiSingle : Nat → Option Activity) :
    FetchOutcome :=
  match resolveActivities argActivity argActivities apiList apiSingle with
  | none => FetchOutcome.noneFound
  | some l =>
    if l = [] then FetchOutcome.noneFound
    else if none ∈ l then FetchOutcome.typeErrorCrash
    else FetchOutcome.processing (l.filterMap id)

/-- C4 evidence: with no selection flags (default latest mode) and an
API that returns an empty activity list, `main` appends `None` to
`activities`, the truthiness check passes (`[None]` is truthy), and the
loop raises `TypeError` at `activity["id"]` instead of reporting "no
activities found"; the same empty result in last-N mode is reported
correctly, as the claim states. -/
theorem fetchOutcome_latest_empty_crash :
    fetchOutcome none none (fun _ => []) (fun _ => none) =
      FetchOutcome.typeErrorCrash ∧
    fetchOutcome none (some 3) (fun _ => []) (fun _ => none) =
      FetchOutcome.noneFound := by decide

/-! ### The processing loop of haddock.py main (lines 296-328).

`gen` is the haddockify oracle: from the workout summary to either the
generated `(title, description)` pair or an `anthropic.APIError`
message.  `updOk` tells whether the PUT issued by `update_activity`
succeeds; on failure the `HTTPError` propagates and ends the run. -/

inductive MainEvent where
  | printOut (s : String)
  | updateCall (id : Nat) (name description : String)
deriving DecidableEq

/-- Python `str(x)` for `activity.get("type")`. -/
def pyShowOptStr : Option String → String
  | none => "None"
  | some s => s

/-- The prints at the top of each loop iteration (lines 300-306). -/
def iterationPrints (a : Activity) : List MainEvent :=
  [MainEvent.printOut ("Original Activity: " ++ a.name.getD "Untitled"),
   MainEvent.printOut ("ID: " ++ toString a.id),
   MainEvent.printOut ("Type: " ++ pyShowOptStr a.type),
   MainEvent.printOut ("Date: " ++ ((a.start_date_local.getD "").take 10)),
   MainEvent.printOut "Generating Captain Haddock version..."]

/-- The for-loop of haddock.py `main` (lines 296-328): strictly
sequential; an `anthropic.APIError` from the generation step prints the
error and returns (ending the whole batch); dry-run prints instead of
updating; otherwise `update_activity` issues one PUT carrying the
generated title and description as the name and description fields. -/
def processActs (dryRun : Bool) (gen : String → Except String (String × String))
    (updOk : Nat → Bool) : List Activity → List MainEvent
  | [] => []
  | a :: rest =>
    match gen (build_workout_summary a) with
    | Except.error e =>
      iterationPrints a ++ [MainEvent.printOut ("Error calling Claude API: " ++ e)]
    | Except.ok td =>
      let shown := iterationPrints a ++
        [MainEvent.printOut "HADDOCK VERSION:",
         MainEvent.printOut ("Title: " ++ td.1),
         MainEvent.printOut ("Description: " ++ td.2)]
      if dryRun then
        (shown ++ [MainEvent.printOut "[DRY RUN - No changes made to Strava]"]) ++
          processActs dryRun gen updOk rest
      else
        let upTo := shown ++ [MainEvent.printOut "Updating Strava...",
          MainEvent.updateCall a.id td.1 td.2]
        if updOk a.id then
          (upTo ++ [MainEvent.printOut "Done! Activity updated."]) ++
            processActs dryRun gen updOk rest
        else upTo

/-- The update calls contained in a trace, in order. -/
def updateCalls : List MainEvent → List (Nat × String × String)
  | [] => []
  | MainEvent.updateCall i n d :: es => (i, n, d) :: updateCalls es
  | _ :: es => updateCalls es

theorem updateCalls_append (l1 l2 : List MainEvent) :
    updateCalls (l1 ++ l2) = updateCalls l1 ++ updateCalls l2 := by
  induction l1 with
  | nil => rfl
  | cons e es ih =>
    cases e <;> simp [updateCalls, ih]

theorem updateCalls_iterationPrints (a : Activity) :
    updateCalls (iterationPrints a) = [] := rfl

/-- The generated pair, with the error default used only under an
is-ok hypothesis. -/
def genOut (r : Except String (String × String)) : String × String :=
  match r with
  | Except.ok td => td
  | Except.error _ => ("", "")

def genOk (r : Except String (String × String)) : Bool :=
  match r with
  | Except.ok _ => true
  | Except.error _ => false

/-- C6: in dry-run mode the loop never issues an update call, for any
oracle and activity list; with dry-run off and every generation and
update succeeding, the trace contains exactly one update call per
activity, in order, carrying the generated title and description. -/
theorem processActs_updates :
    (∀ (gen : String → Except String (String × String)) (updOk : Nat → Bool)
       (acts : List Activity), updateCalls (processActs true gen updOk acts) = []) ∧
    (∀ (gen : String → Except String (String × String)) (updOk : Nat → Bool)
       (acts : List Activity),
      (∀ a ∈ acts, genOk (gen (build_workout_summary a)) = true ∧ updOk a.id = true) →
      updateCalls (processActs false gen updOk acts) =
        acts.map (fun a =>
          (a.id, (genOut (gen (build_workout_summary a))).1,
            (genOut (gen (build_workout_summary a))).2))) := by
  constructor
  · intro gen updOk acts
    induction acts with
    | nil => rfl
    | cons a rest ih =>
      rw [processActs]
      cases hg : gen (build_workout_summary a) with
      | error e => simp [updateCalls_append, updateCalls, iterationPrints]
      | ok td => simp [updateCalls_append, updateCalls, iterationPrints, ih]
  · intro gen updOk acts h
    induction acts with
    | nil => rfl
    | cons a rest ih =>
      obtain ⟨hga, hua⟩ := h a (List.mem_cons_self a rest)
      rw [processActs]
      cases hg : gen (build_workout_summary a) with
      | error e => rw [hg] at hga; exact absurd hga (by simp [genOk])
      | ok td =>
        simp [hua, updateCalls_append, updateCalls, iterationPrints,
          ih (fun b hb => h b (List.mem_cons_of_mem a hb)), hg, genOut]

/-- Witness for the conditional clause of C6: two activities, an
all-succeeding oracle, no dry-run: exactly one update call each. -/
theorem processActs_updates_witness :
    (∀ a ∈ [emptyActivity, rideActivity],
      genOk ((fun _ => Except.ok ("T", "D")) (build_workout_summary a)) = true ∧
      (fun _ => true) a.id = true) ∧
    updateCalls (processActs false (fun _ => Except.ok ("T", "D")) (fun _ => true)
        [emptyActivity, rideActivity]) =
      [emptyActivity, rideActivity].map (fun a =>
        (a.id,
          (genOut ((fun _ => Except.ok ("T", "D")) (build_workout_summary a))).1,
          (genOut ((fun _ => Except.ok ("T", "D")) (build_workout_summary a))).2)) :=
  ⟨by decide,
    processActs_updates.2 (fun _ => Except.ok ("T", "D")) (fun _ => true)
      [emptyActivity, rideActivity] (by decide)⟩

/-- C7: activities are processed strictly sequentially, and when the
generation step fails on one activity (after a prefix of successfully
processed ones) the loop returns: the whole trace equals the trace of
the prefix plus the failing activity alone, independent of all later
activities. -/
theorem processActs_abort_on_failure :
    ∀ (dryRun : Bool) (gen : String → Except String (String × String))
      (updOk : Nat → Bool) (pre : List Activity) (bad : Activity)
      (post : List Activity) (e : String),
      (∀ a ∈ pre, genOk (gen (build_workout_summary a)) = true ∧ updOk a.id = true) →
      gen (build_workout_summary bad) = Except.error e →
      processActs dryRun gen updOk (pre ++ bad :: post) =
        processActs dryRun gen updOk (pre ++ [bad]) := by
  intro dryRun gen updOk pre bad post e hpre hbad
  induction pre with
  | nil =>
    simp only [List.nil_append]
    rw [processActs, processActs, hbad]
  | cons a rest ih =>
    obtain ⟨hga, hua⟩ := hpre a (List.mem_cons_self a rest)
    have ihrest := ih (fun b hb => hpre b (List.mem_cons_of_mem a hb))
    simp only [List.cons_append]
    rw [processActs, processActs]
    cases hg : gen (build_workout_summary a) with
    | error e2 => rfl
    | ok td =>
      cases dryRun with
      | true => simp [ihrest]
      | false => simp [hua, ihrest]

/-- Witness for C7: a one-activity successful prefix, then a failing
activity; the two post activities leave the trace unchanged. -/
theorem processActs_abort_on_failure_witness :
    (∀ a ∈ [emptyActivity],
      genOk ((fun s => if s = build_workout_summary rideActivity
          then Except.error "boom" else Except.ok ("T", "D")) (build_workout_summary a)) =
        true ∧ (fun _ => true) a.id = true) ∧
    (fun s => if s = build_workout_summary rideActivity
        then Except.error "boom" else Except.ok ("T", "D"))
      (build_workout_summary rideActivity) = Except.error "boom" ∧
    processActs false
      (fun s => if s = build_workout_summary rideActivity
        then Except.error "boom" else Except.ok ("T", "D"))
      (fun _ => true) ([emptyActivity] ++ rideActivity :: [rideActivity, emptyActivity]) =
    processActs false
      (fun s => if s = build_workout_summary rideActivity
        then Except.error "boom" else Except.ok ("T", "D"))
      (fun _ => true) ([emptyActivity] ++ [rideActivity]) :=
  ⟨by decide, by decide,
    processActs_abort_on_failure false
      (fun s => if s = build_workout_summary rideActivity
        then Except.error "boom" else Except.ok ("T", "D"))
      (fun _ => true) [emptyActivity] rideActivity [rideActivity, emptyActivity]
      "boom" (by decide) (by decide)⟩

end StravaHaddock
